import Mathlib

/-!
Verification of the arcade-domain-name-toolkit repository.

The development shallowly embeds the expiry-checking and alerting logic:

* `cleanDomain` — the domain-name normalizer
  (`domain.replace("http://","").replace("https://","").replace("www.","").split("/")[0]`),
  with Python's `str.replace` left-to-right replace-all semantics modelled by
  `removeAll` on `List Char`.
* `check_domain_expiry` — the WHOIS expiry checker, with the WHOIS query
  modelled as an explicit oracle `String → WhoisOutcome`.
* `check_ssl_expiry` — the TLS certificate expiry checker, with the network
  (connect + handshake + peer-certificate retrieval) modelled as an oracle
  `String → Nat → ConnOutcome` taking host and port.
* `check_all_domains` / `get_alerts` — the monitor's batch loop and alert
  evaluator from `domain_monitor_app.py`.

Instants (Python timezone-aware `datetime`) are modelled as `Int` seconds
since the epoch; a naive timestamp is represented by the instant obtained by
reading its wall clock as UTC, which is exactly what
`replace(tzinfo=timezone.utc)` produces.  `timedelta.days` is floor division
of the duration by 86400 seconds, i.e. `Int.fdiv`.
-/

namespace DomainToolkit

/-! ## Domain name normalizer -/

/-- One left-to-right pass of Python's `str.replace(pat, "")` over a list of
characters, with explicit fuel so that the definition is structurally
recursive (the fuel is an upper bound on the number of characters consumed;
`removeAll` supplies `s.length`).  At each position: if the pattern matches
here, skip it and continue after it; otherwise keep the character. -/
def removeAllFuel (pat : List Char) : Nat → List Char → List Char
  | _, [] => []
  | 0, s => s
  | fuel + 1, c :: cs =>
    if pat.isPrefixOf (c :: cs) ∧ 0 < pat.length then
      removeAllFuel pat fuel (List.drop (pat.length - 1) cs)
    else
      c :: removeAllFuel pat fuel cs

/-- Python `s.replace(pat, "")`: remove every (left-to-right, non-overlapping)
occurrence of `pat` from `s`. -/
def removeAll (pat s : List Char) : List Char :=
  removeAllFuel pat s.length s

/-- The normalizer from `check_domain_expiry.py` lines 15–20 and
`check_ssl_expiry.py` line 17, on character lists:
`replace("http://","")`, then `replace("https://","")`, then
`replace("www.","")`, then `split("/")[0]` (the prefix before the first
`'/'`). -/
def cleanList (s : List Char) : List Char :=
  (removeAll "www.".toList
    (removeAll "https://".toList
      (removeAll "http://".toList s))).takeWhile (fun c => c ≠ '/')

/-- The domain-name normalizer on strings. -/
def cleanDomain (s : String) : String :=
  String.mk (cleanList s.toList)

/-! ## Check results -/

/-- The result dictionary returned by both checkers.  Keys that a branch does
not set are `none`.  `expiration_date` is kept as the expiry instant (the code
stores its ISO-8601 rendering; the rendering is injective so nothing is lost
for the properties below).  `subject`/`issuer` are the TLS certificate's
attribute lists, passed through unmodified. -/
structure CheckResult where
  domain : String
  status : String
  message : Option String := none
  expiration_date : Option Int := none
  days_until_expiry : Option Int := none
  is_expired : Option Bool := none
  expires_soon : Option Bool := none
  registrar : Option String := none
  subject : Option (List (List (String × String))) := none
  issuer : Option (List (List (String × String))) := none
  deriving Repr, DecidableEq

/-! ## WHOIS expiry checker -/

/-- The `expiration_date` attribute of a WHOIS response: Python `None`, a
single datetime, or a list of datetimes (whose elements may themselves be
`None`). -/
inductive ExpField where
  | nodate
  | single (e : Int)
  | several (es : List (Option Int))
  deriving Repr, DecidableEq

/-- A WHOIS response object: `expiration_date` and `registrar` (absent
registrar is read through `getattr(…, "registrar", "Unknown")`). -/
structure WhoisInfo where
  expiration_date : ExpField
  registrar : Option String
  deriving Repr, DecidableEq

/-- Outcome of calling `whois.whois(clean_domain)`: the call either raises an
exception with a message, or returns `None`, or returns a response object. -/
inductive WhoisOutcome where
  | raised (cause : String)
  | found (info : Option WhoisInfo)
  deriving Repr, DecidableEq

/-- `check_domain_expiry` from
`domain_name_toolkit/tools/check_domain_expiry.py`, with the WHOIS query as
an oracle and the current UTC instant `now` as a parameter.  Branches follow
the source: raising query → catch-all error with the raw input domain;
`None` response → "Domain not found."; list-valued expiration collapsed to
its first element (an empty list raises `IndexError`, caught by the same
catch-all as a raising query: `list index out of range`); missing expiration
→ "Could not determine expiration date"; otherwise success with
`days_until_expiry = (expiration - now).days` (floor division by 86400 s). -/
def check_domain_expiry (whoisQuery : String → WhoisOutcome) (now : Int)
    (domain : String) : CheckResult :=
  let clean_domain := cleanDomain domain
  let succeed : Int → WhoisInfo → CheckResult := fun e info =>
    let d : Int := Int.fdiv (e - now) 86400
    { domain := clean_domain
      status := "success"
      expiration_date := some e
      days_until_expiry := some d
      is_expired := some (decide (d < 0))
      expires_soon := some (decide (0 ≤ d ∧ d ≤ 30))
      registrar := some (info.registrar.getD "Unknown") }
  match whoisQuery clean_domain with
  | .raised cause =>
      { domain := domain, status := "error"
        message := some ("Error checking domain: " ++ cause) }
  | .found none =>
      { domain := clean_domain, status := "error"
        message := some "Domain not found." }
  | .found (some info) =>
      match info.expiration_date with
      | .nodate =>
          { domain := clean_domain, status := "error"
            message := some "Could not determine expiration date" }
      | .single e => succeed e info
      | .several [] =>
          { domain := domain, status := "error"
            message := some ("Error checking domain: " ++ "list index out of range") }
      | .several (none :: _) =>
          { domain := clean_domain, status := "error"
            message := some "Could not determine expiration date" }
      | .several (some e :: _) => succeed e info

/-! ## TLS certificate expiry checker -/

/-- The peer certificate as consumed by the checker: the parsed `notAfter`
instant (the `'%b %d %H:%M:%S %Y %Z'` string is parsed and stamped UTC) and
the optional `subject`/`issuer` attribute lists (read with default `[]`). -/
structure SslCert where
  notAfter : Int
  subject : Option (List (List (String × String))) := none
  issuer : Option (List (List (String × String))) := none
  deriving Repr, DecidableEq

/-- Outcome of `socket.create_connection((host, port)) … getpeercert()`:
resolution failure (`socket.gaierror`), timeout (`socket.timeout`), TLS
failure (`ssl.SSLError` with message), any other exception (the catch-all
also absorbs certificate-parsing failures), or the certificate. -/
inductive ConnOutcome where
  | gaierror
  | timedOut
  | sslError (cause : String)
  | otherError (cause : String)
  | ok (cert : SslCert)
  deriving Repr, DecidableEq

/-- `check_ssl_expiry` from `domain_name_toolkit/tools/check_ssl_expiry.py`,
with the network as an oracle of host and port and the current UTC instant
`now` as a parameter.  The source opens the connection to
`(clean_domain, 443)` — the hardcoded literal 443, not the `port`
parameter.  Day computation and classification are as in the WHOIS
checker; every error branch reports the raw input `domain`. -/
def check_ssl_expiry (net : String → Nat → ConnOutcome) (now : Int)
    (domain : String) (port : Nat) : CheckResult :=
  let clean_domain := cleanDomain domain
  match net clean_domain 443 with
  | .ok cert =>
      let d : Int := Int.fdiv (cert.notAfter - now) 86400
      { domain := clean_domain
        status := "success"
        expiration_date := some cert.notAfter
        days_until_expiry := some d
        is_expired := some (decide (d < 0))
        expires_soon := some (decide (0 ≤ d ∧ d ≤ 30))
        subject := some (cert.subject.getD [])
        issuer := some (cert.issuer.getD []) }
  | .gaierror =>
      { domain := domain, status := "error"
        message := some "Domain not found or not reachable" }
  | .timedOut =>
      { domain := domain, status := "error"
        message := some "Connection timeout" }
  | .sslError cause =>
      { domain := domain, status := "error"
        message := some ("SSL error: " ++ cause) }
  | .otherError cause =>
      { domain := domain, status := "error"
        message := some ("Error checking SSL certificate: " ++ cause) }

end DomainToolkit

namespace DomainMonitor

open DomainToolkit (CheckResult)

/-! ## Monitor configuration (`config_loader.py`) -/

/-- Per-domain configuration; `alert_threshold_days = none` models the
absent/`None` override. -/
structure DomainConfig where
  name : String
  description : String := ""
  alert_threshold_days : Option Int := none
  deriving Repr, DecidableEq

/-- The slice of `MonitoringConfig` the alert evaluator reads. -/
structure MonitoringConfig where
  alert_threshold_days : Int := 30
  deriving Repr, DecidableEq

/-- The slice of `DomainMonitorConfig` used by `check_all_domains` and
`get_alerts`. -/
structure MonitorConfig where
  monitoring : MonitoringConfig
  domains : List DomainConfig
  deriving Repr, DecidableEq

/-! ## Batch results (`domain_monitor_app.py`) -/

/-- One entry of `self.results`: `check_domain` packages the two sub-check
dictionaries (`checked`), and the batch loop substitutes an error record for
a raising check (`failed`, the dictionary carrying the top-level `"error"`
key and no sub-checks).  The `checked_at` wall-clock string is not modelled
(no logic reads it). -/
inductive MonitorResult where
  | checked (domain : String) (domain_check ssl_check : CheckResult)
  | failed (domain : String) (error : String)
  deriving Repr, DecidableEq

/-- The `"domain"` key, present in both result shapes. -/
def MonitorResult.resDomain : MonitorResult → String
  | .checked d _ _ => d
  | .failed d _ => d

/-- Whether the result carries the top-level `"error"` key. -/
def MonitorResult.isError : MonitorResult → Bool
  | .checked .. => false
  | .failed .. => true

/-- `check_domain` composed with the two tool executions, as an oracle: for a
domain name it either yields the pair (domain check, ssl check) or raises. -/
abbrev CheckOracle := String → Except String (CheckResult × CheckResult)

/-- `DomainMonitor.check_all_domains`: iterate over the configured domain
names in order; a raising check is caught and recorded as an error entry and
the loop continues. -/
def check_all_domains (oracle : CheckOracle) : List String → List MonitorResult
  | [] => []
  | d :: ds =>
    (match oracle d with
      | .ok (dc, sc) => MonitorResult.checked d dc sc
      | .error e => MonitorResult.failed d e) :: check_all_domains oracle ds

/-! ## Alert evaluator (`DomainMonitor.get_alerts`) -/

/-- An alert dictionary.  `registrar` is only set on domain-registration
alerts (the ssl-certificate alert dictionary has no such key, modelled as
`none`). -/
structure AlertRecord where
  domain : String
  type : String
  days_until_expiry : Option Int
  expiration_date : Option Int
  registrar : Option String := none
  threshold : Int
  deriving Repr, DecidableEq

/-- The effective threshold for a domain, exactly as computed on lines
105–108 of `domain_monitor_app.py`:
`domain_config.alert_threshold_days if domain_config and
domain_config.alert_threshold_days else global`.  Python truthiness of an
`int` is "nonzero", so an override of `0` falls back to the global value. -/
def effectiveThreshold (cfg : MonitorConfig) (domain_name : String) : Int :=
  match cfg.domains.find? (fun d => d.name == domain_name) with
  | some dc =>
    match dc.alert_threshold_days with
    | some t => if t ≠ 0 then t else cfg.monitoring.alert_threshold_days
    | none => cfg.monitoring.alert_threshold_days
  | none => cfg.monitoring.alert_threshold_days

/-- The alerts contributed by a single result: skip results carrying the
`"error"` key; otherwise emit the domain-registration alert and then the
ssl-certificate alert, each guarded by
`status == "success" and get("days_until_expiry", 999) <= threshold`. -/
def alertsFor (cfg : MonitorConfig) : MonitorResult → List AlertRecord
  | .failed _ _ => []
  | .checked domain_name domain_check ssl_check =>
    let threshold := effectiveThreshold cfg domain_name
    (if domain_check.status = "success" ∧
        domain_check.days_until_expiry.getD 999 ≤ threshold then
      [{ domain := domain_name
         type := "domain_registration"
         days_until_expiry := domain_check.days_until_expiry
         expiration_date := domain_check.expiration_date
         registrar := domain_check.registrar
         threshold := threshold }]
     else []) ++
    (if ssl_check.status = "success" ∧
        ssl_check.days_until_expiry.getD 999 ≤ threshold then
      [{ domain := domain_name
         type := "ssl_certificate"
         days_until_expiry := ssl_check.days_until_expiry
         expiration_date := ssl_check.expiration_date
         threshold := threshold }]
     else [])

/-- `DomainMonitor.get_alerts`: fold `alertsFor` over the result list in
order (the Python loop appends to a single list). -/
def get_alerts (cfg : MonitorConfig) : List MonitorResult → List AlertRecord
  | [] => []
  | r :: rs => alertsFor cfg r ++ get_alerts cfg rs

/-- `self.domains = [domain.name for domain in self.config.domains]`. -/
def configuredDomains (cfg : MonitorConfig) : List String :=
  cfg.domains.map DomainConfig.name

/-- Well-formedness of a result entry: a sub-check reporting success carries
a day count.  Every dictionary the two checkers can return satisfies this
(see `check_domain_expiry_wf` and `check_ssl_expiry_wf`). -/
def WFResult : MonitorResult → Prop
  | .checked _ dc sc =>
      (dc.status = "success" → dc.days_until_expiry.isSome = true) ∧
      (sc.status = "success" → sc.days_until_expiry.isSome = true)
  | .failed _ _ => True

end DomainMonitor

namespace Fixtures

open DomainToolkit DomainMonitor

/-! Concrete inputs used to instantiate the theorems below on closed
values. -/

/-- A raw domain whose normalization differs from it. -/
def rawD : String := "https://www.example.com/x"

/-- A WHOIS oracle that raises. -/
def qRaise : String → WhoisOutcome := fun _ => .raised "boom"

/-- A WHOIS oracle that returns `None`. -/
def qNone : String → WhoisOutcome := fun _ => .found none

/-- A WHOIS oracle returning a response with no expiration date. -/
def qNoDate : String → WhoisOutcome :=
  fun _ => .found (some { expiration_date := .nodate, registrar := some "R" })

/-- A WHOIS oracle returning a single expiration 100 days after instant 0. -/
def qSingle : String → WhoisOutcome :=
  fun _ => .found (some { expiration_date := .single (100 * 86400), registrar := some "R" })

/-- A WHOIS oracle returning a list of expiration dates. -/
def qList : String → WhoisOutcome :=
  fun _ => .found (some { expiration_date := .several [some (100 * 86400), some 7],
                          registrar := some "R" })

/-- A WHOIS oracle returning an empty expiration-date list. -/
def qEmptyList : String → WhoisOutcome :=
  fun _ => .found (some { expiration_date := .several [], registrar := some "R" })

/-- Network oracles driving each TLS branch. -/
def netGai : String → Nat → ConnOutcome := fun _ _ => .gaierror

def netTimeout : String → Nat → ConnOutcome := fun _ _ => .timedOut

def netSsl : String → Nat → ConnOutcome := fun _ _ => .sslError "handshake"

def netOther : String → Nat → ConnOutcome := fun _ _ => .otherError "oops"

def netOk : String → Nat → ConnOutcome :=
  fun _ _ => .ok { notAfter := 100 * 86400, subject := some [[("CN", "example.com")]] }

/-- Config with a per-domain threshold override of `0` (global 30). -/
def cfgZero : MonitorConfig :=
  { monitoring := { alert_threshold_days := 30 }
    domains := [{ name := "a.com", alert_threshold_days := some 0 }] }

/-- A result for `a.com`: registration check succeeded 10 days out, TLS
check errored. -/
def rZero : MonitorResult :=
  .checked "a.com"
    { domain := "a.com", status := "success", days_until_expiry := some 10,
      expiration_date := some 864000, registrar := some "R" }
    { domain := "a.com", status := "error",
      message := some "Connection timeout" }

/-- Config with a per-domain threshold override of `60` (global 30). -/
def cfg60 : MonitorConfig :=
  { monitoring := { alert_threshold_days := 30 }
    domains := [{ name := "b.com", alert_threshold_days := some 60 }] }

/-- A result for `b.com`: registration check succeeded 45 days out, TLS
check errored. -/
def r45 : MonitorResult :=
  .checked "b.com"
    { domain := "b.com", status := "success", days_until_expiry := some 45,
      expiration_date := some (45 * 86400), registrar := some "R" }
    { domain := "b.com", status := "error",
      message := some "Connection timeout" }

/-- A result whose two sub-checks both fire under threshold 30. -/
def rBoth : MonitorResult :=
  .checked "c.com"
    { domain := "c.com", status := "success", days_until_expiry := some 5,
      expiration_date := some (5 * 86400), registrar := some "R" }
    { domain := "c.com", status := "success", days_until_expiry := some 9,
      expiration_date := some (9 * 86400) }

/-- A config with no per-domain overrides. -/
def cfgPlain : MonitorConfig :=
  { monitoring := { alert_threshold_days := 30 }
    domains := [{ name := "c.com" }, { name := "d.com" }] }

/-- A batch oracle that fails on `c.com` and succeeds on `d.com`. -/
def oracleMixed : CheckOracle := fun d =>
  if d = "c.com" then .error "network down"
  else .ok ({ domain := d, status := "success", days_until_expiry := some 50,
              expiration_date := some (50 * 86400), registrar := some "R" },
            { domain := d, status := "success", days_until_expiry := some 40,
              expiration_date := some (40 * 86400) })

end Fixtures

/-! # Theorems -/

namespace DomainToolkit

/-- Floor-division characterization: `Int.fdiv x 86400` (Python
`timedelta.days`) is the unique integer `d` with
`86400 * d ≤ x < 86400 * (d + 1)`. -/
theorem fdiv_day_bounds (x : Int) :
    86400 * Int.fdiv x 86400 ≤ x ∧ x < 86400 * (Int.fdiv x 86400 + 1) := by
  rw [Int.fdiv_eq_ediv x (by norm_num : (0 : Int) ≤ 86400)]
  omega

/-- Two strings whose data begin with distinct characters are distinct, even
after appending arbitrary suffixes. -/
theorem append_ne_append_of_head (a b : String) (ca cb : Char)
    (la lb : List Char) (ha : a.data = ca :: la) (hb : b.data = cb :: lb)
    (hne : ca ≠ cb) : ∀ s t : String, a ++ s ≠ b ++ t := by
  intro s t h
  have h2 := congrArg String.data h
  rw [String.data_append, String.data_append, ha, hb] at h2
  simp only [List.cons_append, List.cons.injEq] at h2
  exact hne h2.1

/-- A fixed string is distinct from `b ++ t` when their heads differ. -/
theorem ne_append_of_head (a b : String) (ca cb : Char)
    (la lb : List Char) (ha : a.data = ca :: la) (hb : b.data = cb :: lb)
    (hne : ca ≠ cb) : ∀ t : String, a ≠ b ++ t := by
  intro t
  have := append_ne_append_of_head a b ca cb la lb ha hb hne "" t
  rwa [String.append_empty] at this

/-- C1.  For every WHOIS-checker input and every TLS-checker input whose
result has `status = "success"`, the returned fields satisfy the invariant:
`days_until_expiry` is the floor of the day count of the duration from the
current UTC instant to the expiration instant (`Int.fdiv _ 86400`, with the
floor characterized by explicit bounds), `is_expired` holds exactly when the
day count is negative, and `expires_soon` holds exactly when the day count is
between 0 and 30.  The window 30 is a fixed constant: neither checker takes
the configurable alert threshold as an input at all. -/
theorem c1_success_fields (q : String → WhoisOutcome)
    (net : String → Nat → ConnOutcome) (now : Int) (domain : String)
    (port : Nat) :
    ((check_domain_expiry q now domain).status = "success" →
      ∃ e d, (check_domain_expiry q now domain).expiration_date = some e ∧
        (check_domain_expiry q now domain).days_until_expiry = some d ∧
        d = Int.fdiv (e - now) 86400 ∧
        86400 * d ≤ e - now ∧ e - now < 86400 * (d + 1) ∧
        (check_domain_expiry q now domain).is_expired = some (decide (d < 0)) ∧
        (check_domain_expiry q now domain).expires_soon =
          some (decide (0 ≤ d ∧ d ≤ 30))) ∧
    ((check_ssl_expiry net now domain port).status = "success" →
      ∃ e d, (check_ssl_expiry net now domain port).expiration_date = some e ∧
        (check_ssl_expiry net now domain port).days_until_expiry = some d ∧
        d = Int.fdiv (e - now) 86400 ∧
        86400 * d ≤ e - now ∧ e - now < 86400 * (d + 1) ∧
        (check_ssl_expiry net now domain port).is_expired =
          some (decide (d < 0)) ∧
        (check_ssl_expiry net now domain port).expires_soon =
          some (decide (0 ≤ d ∧ d ≤ 30))) := by
  constructor
  · intro hs
    rcases hq : q (cleanDomain domain) with cause | info
    · simp [check_domain_expiry, hq] at hs
    · rcases info with _ | info
      · simp [check_domain_expiry, hq] at hs
      · rcases hexp : info.expiration_date with _ | e | es
        · simp [check_domain_expiry, hq, hexp] at hs
        · refine ⟨e, Int.fdiv (e - now) 86400, ?_⟩
          simp [check_domain_expiry, hq, hexp]
          exact fdiv_day_bounds _
        · rcases es with _ | ⟨e, es⟩
          · simp [check_domain_expiry, hq, hexp] at hs
          · rcases e with _ | e
            · simp [check_domain_expiry, hq, hexp] at hs
            · refine ⟨e, Int.fdiv (e - now) 86400, ?_⟩
              simp [check_domain_expiry, hq, hexp]
              exact fdiv_day_bounds _
  · intro hs
    rcases hn : net (cleanDomain domain) 443 with _ | _ | c | c | cert
    · simp [check_ssl_expiry, hn] at hs
    · simp [check_ssl_expiry, hn] at hs
    · simp [check_ssl_expiry, hn] at hs
    · simp [check_ssl_expiry, hn] at hs
    · refine ⟨cert.notAfter, Int.fdiv (cert.notAfter - now) 86400, ?_⟩
      simp [check_ssl_expiry, hn]
      exact fdiv_day_bounds _

/-- Witness for C1: both checkers at instant 0 on an expiry 100 days out. -/
theorem c1_success_fields_witness :
    (∃ e d,
      (check_domain_expiry Fixtures.qSingle 0 Fixtures.rawD).expiration_date = some e ∧
      (check_domain_expiry Fixtures.qSingle 0 Fixtures.rawD).days_until_expiry = some d ∧
      d = Int.fdiv (e - 0) 86400 ∧
      86400 * d ≤ e - 0 ∧ e - 0 < 86400 * (d + 1) ∧
      (check_domain_expiry Fixtures.qSingle 0 Fixtures.rawD).is_expired = some (decide (d < 0)) ∧
      (check_domain_expiry Fixtures.qSingle 0 Fixtures.rawD).expires_soon =
        some (decide (0 ≤ d ∧ d ≤ 30))) ∧
    (∃ e d,
      (check_ssl_expiry Fixtures.netOk 0 Fixtures.rawD 443).expiration_date = some e ∧
      (check_ssl_expiry Fixtures.netOk 0 Fixtures.rawD 443).days_until_expiry = some d ∧
      d = Int.fdiv (e - 0) 86400 ∧
      86400 * d ≤ e - 0 ∧ e - 0 < 86400 * (d + 1) ∧
      (check_ssl_expiry Fixtures.netOk 0 Fixtures.rawD 443).is_expired = some (decide (d < 0)) ∧
      (check_ssl_expiry Fixtures.netOk 0 Fixtures.rawD 443).expires_soon =
        some (decide (0 ≤ d ∧ d ≤ 30))) :=
  ⟨(c1_success_fields Fixtures.qSingle Fixtures.netOk 0 Fixtures.rawD 443).1 (by decide),
   (c1_success_fields Fixtures.qSingle Fixtures.netOk 0 Fixtures.rawD 443).2 (by decide)⟩

/-- C4.  WHOIS-checker error handling: a raising query yields
`status = "error"` with message `"Error checking domain: <cause>"`; a `None`
response yields `"Domain not found."`; a list-valued expiration field is
collapsed to its first element (the result is the same as if the query had
returned that single timestamp); a missing expiration timestamp yields
`"Could not determine expiration date"`. -/
theorem c4_whois_error_handling (q : String → WhoisOutcome) (now : Int)
    (domain : String) (cause : String) (info : WhoisInfo) (e : Int)
    (rest : List (Option Int)) :
    (q (cleanDomain domain) = .raised cause →
      check_domain_expiry q now domain =
        { domain := domain, status := "error",
          message := some ("Error checking domain: " ++ cause) }) ∧
    (q (cleanDomain domain) = .found none →
      check_domain_expiry q now domain =
        { domain := cleanDomain domain, status := "error",
          message := some "Domain not found." }) ∧
    (q (cleanDomain domain) = .found (some info) →
      info.expiration_date = .several (some e :: rest) →
      check_domain_expiry q now domain =
        check_domain_expiry
          (fun _ => .found (some { info with expiration_date := .single e }))
          now domain) ∧
    (q (cleanDomain domain) = .found (some info) →
      info.expiration_date = .nodate →
      check_domain_expiry q now domain =
        { domain := cleanDomain domain, status := "error",
          message := some "Could not determine expiration date" }) := by
  refine ⟨fun hq => ?_, fun hq => ?_, fun hq hexp => ?_, fun hq hexp => ?_⟩
  · simp [check_domain_expiry, hq]
  · simp [check_domain_expiry, hq]
  · simp [check_domain_expiry, hq, hexp]
  · simp [check_domain_expiry, hq, hexp]

/-- Witness for C4, instantiating each branch with its own oracle. -/
theorem c4_whois_error_handling_witness :
    (check_domain_expiry Fixtures.qRaise 0 Fixtures.rawD =
      { domain := Fixtures.rawD, status := "error",
        message := some ("Error checking domain: " ++ "boom") }) ∧
    (check_domain_expiry Fixtures.qNone 0 Fixtures.rawD =
      { domain := cleanDomain Fixtures.rawD, status := "error",
        message := some "Domain not found." }) ∧
    (check_domain_expiry Fixtures.qList 0 Fixtures.rawD =
      check_domain_expiry
        (fun _ => .found (some { expiration_date := .single (100 * 86400),
                                 registrar := some "R" }))
        0 Fixtures.rawD) ∧
    (check_domain_expiry Fixtures.qNoDate 0 Fixtures.rawD =
      { domain := cleanDomain Fixtures.rawD, status := "error",
        message := some "Could not determine expiration date" }) :=
  ⟨(c4_whois_error_handling Fixtures.qRaise 0 Fixtures.rawD "boom"
      { expiration_date := .nodate, registrar := none } 0 []).1 rfl,
   (c4_whois_error_handling Fixtures.qNone 0 Fixtures.rawD "boom"
      { expiration_date := .nodate, registrar := none } 0 []).2.1 rfl,
   (c4_whois_error_handling Fixtures.qList 0 Fixtures.rawD "boom"
      { expiration_date := .several [some (100 * 86400), some 7],
        registrar := some "R" } (100 * 86400) [some 7]).2.2.1 rfl rfl,
   (c4_whois_error_handling Fixtures.qNoDate 0 Fixtures.rawD "boom"
      { expiration_date := .nodate, registrar := some "R" } 0 []).2.2.2 rfl rfl⟩

/-- C5.  TLS-checker error handling: resolution failure, timeout, TLS
handshake failure and any other exception each map to their own
`status = "error"` result, and the four messages are pairwise distinct (for
all embedded cause texts).  The checker consults the network oracle exactly
once, so no retry is possible. -/
theorem c5_ssl_error_mapping (net : String → Nat → ConnOutcome) (now : Int)
    (domain : String) (port : Nat) (cause : String) :
    (net (cleanDomain domain) 443 = .gaierror →
      check_ssl_expiry net now domain port =
        { domain := domain, status := "error",
          message := some "Domain not found or not reachable" }) ∧
    (net (cleanDomain domain) 443 = .timedOut →
      check_ssl_expiry net now domain port =
        { domain := domain, status := "error",
          message := some "Connection timeout" }) ∧
    (net (cleanDomain domain) 443 = .sslError cause →
      check_ssl_expiry net now domain port =
        { domain := domain, status := "error",
          message := some ("SSL error: " ++ cause) }) ∧
    (net (cleanDomain domain) 443 = .otherError cause →
      check_ssl_expiry net now domain port =
        { domain := domain, status := "error",
          message := some ("Error checking SSL certificate: " ++ cause) }) ∧
    ("Domain not found or not reachable" ≠ "Connection timeout") ∧
    (∀ s, "Domain not found or not reachable" ≠ "SSL error: " ++ s) ∧
    (∀ s, "Domain not found or not reachable" ≠
      "Error checking SSL certificate: " ++ s) ∧
    (∀ s, "Connection timeout" ≠ "SSL error: " ++ s) ∧
    (∀ s, "Connection timeout" ≠ "Error checking SSL certificate: " ++ s) ∧
    (∀ s t, "SSL error: " ++ s ≠ "Error checking SSL certificate: " ++ t) := by
  refine ⟨fun hn => ?_, fun hn => ?_, fun hn => ?_, fun hn => ?_,
    by decide, ?_, ?_, ?_, ?_, ?_⟩
  · simp [check_ssl_expiry, hn]
  · simp [check_ssl_expiry, hn]
  · simp [check_ssl_expiry, hn]
  · simp [check_ssl_expiry, hn]
  · exact ne_append_of_head _ _ 'D' 'S' _ _ rfl rfl (by decide)
  · exact ne_append_of_head _ _ 'D' 'E' _ _ rfl rfl (by decide)
  · exact ne_append_of_head _ _ 'C' 'S' _ _ rfl rfl (by decide)
  · exact ne_append_of_head _ _ 'C' 'E' _ _ rfl rfl (by decide)
  · exact append_ne_append_of_head _ _ 'S' 'E' _ _ rfl rfl (by decide)

/-- Witness for C5: each failure mode driven by its own network oracle. -/
theorem c5_ssl_error_mapping_witness :
    (check_ssl_expiry Fixtures.netGai 0 Fixtures.rawD 443 =
      { domain := Fixtures.rawD, status := "error",
        message := some "Domain not found or not reachable" }) ∧
    (check_ssl_expiry Fixtures.netTimeout 0 Fixtures.rawD 443 =
      { domain := Fixtures.rawD, status := "error",
        message := some "Connection timeout" }) ∧
    (check_ssl_expiry Fixtures.netSsl 0 Fixtures.rawD 443 =
      { domain := Fixtures.rawD, status := "error",
        message := some ("SSL error: " ++ "handshake") }) ∧
    (check_ssl_expiry Fixtures.netOther 0 Fixtures.rawD 443 =
      { domain := Fixtures.rawD, status := "error",
        message := some ("Error checking SSL certificate: " ++ "oops") }) :=
  ⟨(c5_ssl_error_mapping Fixtures.netGai 0 Fixtures.rawD 443 "handshake").1 rfl,
   (c5_ssl_error_mapping Fixtures.netTimeout 0 Fixtures.rawD 443 "handshake").2.1 rfl,
   (c5_ssl_error_mapping Fixtures.netSsl 0 Fixtures.rawD 443 "handshake").2.2.1 rfl,
   (c5_ssl_error_mapping Fixtures.netOther 0 Fixtures.rawD 443 "oops").2.2.2.1 rfl⟩

/-- C9.  The TLS checker's `port` parameter is dead: the result is identical
for any two port arguments, and the result depends on the network oracle
only through its value at port 443 (the source hardcodes
`socket.create_connection((clean_domain, 443))`). -/
theorem c9_port_ignored (net net2 : String → Nat → ConnOutcome) (now : Int)
    (domain : String) (p1 p2 : Nat) :
    check_ssl_expiry net now domain p1 = check_ssl_expiry net now domain p2 ∧
    ((∀ h, net h 443 = net2 h 443) →
      check_ssl_expiry net now domain p1 = check_ssl_expiry net2 now domain p2) := by
  refine ⟨rfl, fun h => ?_⟩
  simp only [check_ssl_expiry, h (cleanDomain domain)]

/-- Witness for C9: two oracles agreeing at port 443 but not elsewhere. -/
theorem c9_port_ignored_witness :
    check_ssl_expiry Fixtures.netOk 0 Fixtures.rawD 8443 =
      check_ssl_expiry (fun h p => if p = 443 then Fixtures.netOk h p else .gaierror)
        0 Fixtures.rawD 80 :=
  (c9_port_ignored Fixtures.netOk
    (fun h p => if p = 443 then Fixtures.netOk h p else .gaierror)
    0 Fixtures.rawD 8443 80).2 (fun _ => by simp)

/-- C10.  The `domain` field of the returned result is not uniform: in the
TLS checker every error branch reports the raw input string while the
success branch reports the normalized host; in the WHOIS checker only the
catch-all exception branches (a raising query, and the `IndexError` raised
by an empty expiration list) report the raw input, while the
"Domain not found." and "Could not determine expiration date" error results
and the success result report the normalized host. -/
theorem c10_domain_field (q : String → WhoisOutcome)
    (net : String → Nat → ConnOutcome) (now : Int) (domain : String)
    (port : Nat) (cause : String) (info : WhoisInfo) (e : Int)
    (cert : SslCert) :
    (q (cleanDomain domain) = .raised cause →
      (check_domain_expiry q now domain).domain = domain) ∧
    (q (cleanDomain domain) = .found none →
      (check_domain_expiry q now domain).domain = cleanDomain domain) ∧
    (q (cleanDomain domain) = .found (some info) →
      info.expiration_date = .nodate →
      (check_domain_expiry q now domain).domain = cleanDomain domain) ∧
    (q (cleanDomain domain) = .found (some info) →
      info.expiration_date = .single e →
      (check_domain_expiry q now domain).status = "success" ∧
      (check_domain_expiry q now domain).domain = cleanDomain domain) ∧
    (q (cleanDomain domain) = .found (some info) →
      info.expiration_date = .several [] →
      (check_domain_expiry q now domain).domain = domain) ∧
    (net (cleanDomain domain) 443 = .gaierror →
      (check_ssl_expiry net now domain port).domain = domain) ∧
    (net (cleanDomain domain) 443 = .timedOut →
      (check_ssl_expiry net now domain port).domain = domain) ∧
    (net (cleanDomain domain) 443 = .sslError cause →
      (check_ssl_expiry net now domain port).domain = domain) ∧
    (net (cleanDomain domain) 443 = .otherError cause →
      (check_ssl_expiry net now domain port).domain = domain) ∧
    (net (cleanDomain domain) 443 = .ok cert →
      (check_ssl_expiry net now domain port).status = "success" ∧
      (check_ssl_expiry net now domain port).domain = cleanDomain domain) := by
  refine ⟨fun hq => ?_, fun hq => ?_, fun hq hexp => ?_, fun hq hexp => ?_,
    fun hq hexp => ?_, fun hn => ?_, fun hn => ?_, fun hn => ?_,
    fun hn => ?_, fun hn => ?_⟩
  · simp [check_domain_expiry, hq]
  · simp [check_domain_expiry, hq]
  · simp [check_domain_expiry, hq, hexp]
  · simp [check_domain_expiry, hq, hexp]
  · simp [check_domain_expiry, hq, hexp]
  · simp [check_ssl_expiry, hn]
  · simp [check_ssl_expiry, hn]
  · simp [check_ssl_expiry, hn]
  · simp [check_ssl_expiry, hn]
  · simp [check_ssl_expiry, hn]

/-- Witness for C10: each branch at a raw input that differs from its
normalization (`"https://www.example.com/x"` vs `"example.com"`). -/
theorem c10_domain_field_witness :
    ((check_domain_expiry Fixtures.qRaise 0 Fixtures.rawD).domain = Fixtures.rawD) ∧
    ((check_domain_expiry Fixtures.qNone 0 Fixtures.rawD).domain =
      cleanDomain Fixtures.rawD) ∧
    ((check_domain_expiry Fixtures.qNoDate 0 Fixtures.rawD).domain =
      cleanDomain Fixtures.rawD) ∧
    ((check_domain_expiry Fixtures.qSingle 0 Fixtures.rawD).status = "success" ∧
      (check_domain_expiry Fixtures.qSingle 0 Fixtures.rawD).domain =
        cleanDomain Fixtures.rawD) ∧
    ((check_domain_expiry Fixtures.qEmptyList 0 Fixtures.rawD).domain =
      Fixtures.rawD) ∧
    ((check_ssl_expiry Fixtures.netGai 0 Fixtures.rawD 443).domain = Fixtures.rawD) ∧
    ((check_ssl_expiry Fixtures.netTimeout 0 Fixtures.rawD 443).domain = Fixtures.rawD) ∧
    ((check_ssl_expiry Fixtures.netSsl 0 Fixtures.rawD 443).domain = Fixtures.rawD) ∧
    ((check_ssl_expiry Fixtures.netOther 0 Fixtures.rawD 443).domain = Fixtures.rawD) ∧
    ((check_ssl_expiry Fixtures.netOk 0 Fixtures.rawD 443).status = "success" ∧
      (check_ssl_expiry Fixtures.netOk 0 Fixtures.rawD 443).domain =
        cleanDomain Fixtures.rawD) ∧
    cleanDomain Fixtures.rawD ≠ Fixtures.rawD :=
  ⟨(c10_domain_field Fixtures.qRaise Fixtures.netGai 0 Fixtures.rawD 443 "boom"
      { expiration_date := .nodate, registrar := none } 0
      { notAfter := 0 }).1 rfl,
   (c10_domain_field Fixtures.qNone Fixtures.netGai 0 Fixtures.rawD 443 "boom"
      { expiration_date := .nodate, registrar := none } 0
      { notAfter := 0 }).2.1 rfl,
   (c10_domain_field Fixtures.qNoDate Fixtures.netGai 0 Fixtures.rawD 443 "boom"
      { expiration_date := .nodate, registrar := some "R" } 0
      { notAfter := 0 }).2.2.1 rfl rfl,
   (c10_domain_field Fixtures.qSingle Fixtures.netGai 0 Fixtures.rawD 443 "boom"
      { expiration_date := .single (100 * 86400), registrar := some "R" }
      (100 * 86400) { notAfter := 0 }).2.2.2.1 rfl rfl,
   (c10_domain_field Fixtures.qEmptyList Fixtures.netGai 0 Fixtures.rawD 443 "boom"
      { expiration_date := .several [], registrar := some "R" } 0
      { notAfter := 0 }).2.2.2.2.1 rfl rfl,
   (c10_domain_field Fixtures.qRaise Fixtures.netGai 0 Fixtures.rawD 443 "boom"
      { expiration_date := .nodate, registrar := none } 0
      { notAfter := 0 }).2.2.2.2.2.1 rfl,
   (c10_domain_field Fixtures.qRaise Fixtures.netTimeout 0 Fixtures.rawD 443 "boom"
      { expiration_date := .nodate, registrar := none } 0
      { notAfter := 0 }).2.2.2.2.2.2.1 rfl,
   (c10_domain_field Fixtures.qRaise Fixtures.netSsl 0 Fixtures.rawD 443 "handshake"
      { expiration_date := .nodate, registrar := none } 0
      { notAfter := 0 }).2.2.2.2.2.2.2.1 rfl,
   (c10_domain_field Fixtures.qRaise Fixtures.netOther 0 Fixtures.rawD 443 "oops"
      { expiration_date := .nodate, registrar := none } 0
      { notAfter := 0 }).2.2.2.2.2.2.2.2.1 rfl,
   (c10_domain_field Fixtures.qRaise Fixtures.netOk 0 Fixtures.rawD 443 "boom"
      { expiration_date := .nodate, registrar := none } 0
      { notAfter := 100 * 86400, subject := some [[("CN", "example.com")]] }).2.2.2.2.2.2.2.2.2 rfl,
   by decide⟩

/-- Checker self-validation: every WHOIS-checker result reporting success
carries a day count (the well-formedness `get_alerts` relies on). -/
theorem check_domain_expiry_wf (q : String → WhoisOutcome) (now : Int)
    (domain : String) :
    (check_domain_expiry q now domain).status = "success" →
    (check_domain_expiry q now domain).days_until_expiry.isSome = true := by
  intro hs
  rcases (c1_success_fields q (fun _ _ => ConnOutcome.gaierror) now domain 443).1 hs
    with ⟨e, d, _, hd, _⟩
  simp [hd]

/-- Checker self-validation: every TLS-checker result reporting success
carries a day count. -/
theorem check_ssl_expiry_wf (net : String → Nat → ConnOutcome) (now : Int)
    (domain : String) (port : Nat) :
    (check_ssl_expiry net now domain port).status = "success" →
    (check_ssl_expiry net now domain port).days_until_expiry.isSome = true := by
  intro hs
  rcases (c1_success_fields (fun _ => WhoisOutcome.found none) net now domain port).2 hs
    with ⟨e, d, _, hd, _⟩
  simp [hd]

end DomainToolkit

namespace DomainMonitor

open DomainToolkit

/-- The evaluator distributes over list append: alerts follow input order. -/
theorem get_alerts_append (cfg : MonitorConfig) (l1 l2 : List MonitorResult) :
    get_alerts cfg (l1 ++ l2) = get_alerts cfg l1 ++ get_alerts cfg l2 := by
  induction l1 with
  | nil => rfl
  | cons r rs ih => simp [get_alerts, ih]

/-- Every alert contributed by a single checked result carries the effective
threshold of its domain. -/
theorem alertsFor_threshold (cfg : MonitorConfig) (name : String)
    (dc sc : CheckResult) (a : AlertRecord)
    (ha : a ∈ alertsFor cfg (.checked name dc sc)) :
    a.threshold = effectiveThreshold cfg name := by
  simp only [alertsFor] at ha
  rcases List.mem_append.mp ha with h | h <;>
    [skip; skip] <;>
    · split at h
      · rcases List.mem_singleton.mp h with rfl
        rfl
      · exact absurd h (List.not_mem_nil a)

end DomainMonitor

namespace DomainMonitor

open DomainToolkit

/-- C2.  Every alert emitted by `get_alerts` (on well-formed results, as
both checkers produce: a success sub-check carries a day count) originates
from a sub-check of the matching type with `status = "success"` and a day
count at most the threshold carried in the record; and a result carrying the
top-level error key contributes zero alerts wherever it sits in the batch,
with the rest of the batch unaffected. -/
theorem c2_alert_invariant (cfg : MonitorConfig) (results : List MonitorResult) :
    ((∀ r ∈ results, WFResult r) → ∀ a ∈ get_alerts cfg results,
      ∃ name dc sc, MonitorResult.checked name dc sc ∈ results ∧
        a.domain = name ∧
        ∃ d, a.days_until_expiry = some d ∧ d ≤ a.threshold ∧
          ((a.type = "domain_registration" ∧ dc.status = "success" ∧
              dc.days_until_expiry = some d) ∨
           (a.type = "ssl_certificate" ∧ sc.status = "success" ∧
              sc.days_until_expiry = some d))) ∧
    (∀ pre post name err,
      get_alerts cfg (pre ++ MonitorResult.failed name err :: post) =
        get_alerts cfg (pre ++ post)) := by
  constructor
  · induction results with
    | nil => intro _ a ha; exact absurd ha (List.not_mem_nil a)
    | cons r rs ih =>
      intro hwf a ha
      simp only [get_alerts] at ha
      rcases List.mem_append.mp ha with h | h
      · cases r with
        | failed d e => exact absurd h (List.not_mem_nil a)
        | checked name dc sc =>
          have hwfr : WFResult (.checked name dc sc) :=
            hwf _ (List.mem_cons_self _ _)
          simp only [WFResult] at hwfr
          simp only [alertsFor] at h
          rcases List.mem_append.mp h with h2 | h2
          · split at h2
            next hcond =>
              rcases List.mem_singleton.mp h2 with rfl
              rcases Option.isSome_iff_exists.mp (hwfr.1 hcond.1) with ⟨d, hd⟩
              have hle := hcond.2
              rw [hd, Option.getD_some] at hle
              exact ⟨name, dc, sc, List.mem_cons_self _ _, rfl, d, hd, hle,
                Or.inl ⟨rfl, hcond.1, hd⟩⟩
            next => exact absurd h2 (List.not_mem_nil a)
          · split at h2
            next hcond =>
              rcases List.mem_singleton.mp h2 with rfl
              rcases Option.isSome_iff_exists.mp (hwfr.2 hcond.1) with ⟨d, hd⟩
              have hle := hcond.2
              rw [hd, Option.getD_some] at hle
              exact ⟨name, dc, sc, List.mem_cons_self _ _, rfl, d, hd, hle,
                Or.inr ⟨rfl, hcond.1, hd⟩⟩
            next => exact absurd h2 (List.not_mem_nil a)
      · rcases ih (fun r hr => hwf r (List.mem_cons_of_mem _ hr)) a h with
          ⟨name, dc, sc, hmem, rest⟩
        exact ⟨name, dc, sc, List.mem_cons_of_mem _ hmem, rest⟩
  · intro pre post name err
    rw [get_alerts_append, get_alerts_append]
    rfl

/-- Witness for C2: a batch with one fully successful result; the first
emitted alert satisfies the invariant. -/
theorem c2_alert_invariant_witness :
    ∃ name dc sc, MonitorResult.checked name dc sc ∈ [Fixtures.rBoth] ∧
      ({ domain := "c.com", type := "domain_registration",
         days_until_expiry := some 5, expiration_date := some (5 * 86400),
         registrar := some "R", threshold := 30 } : AlertRecord).domain = name ∧
      ∃ d, ({ domain := "c.com", type := "domain_registration",
              days_until_expiry := some 5, expiration_date := some (5 * 86400),
              registrar := some "R", threshold := 30 } : AlertRecord).days_until_expiry
            = some d ∧
        d ≤ ({ domain := "c.com", type := "domain_registration",
               days_until_expiry := some 5, expiration_date := some (5 * 86400),
               registrar := some "R", threshold := 30 } : AlertRecord).threshold ∧
        ((({ domain := "c.com", type := "domain_registration",
             days_until_expiry := some 5, expiration_date := some (5 * 86400),
             registrar := some "R", threshold := 30 } : AlertRecord).type =
              "domain_registration" ∧
            dc.status = "success" ∧ dc.days_until_expiry = some d) ∨
         (({ domain := "c.com", type := "domain_registration",
             days_until_expiry := some 5, expiration_date := some (5 * 86400),
             registrar := some "R", threshold := 30 } : AlertRecord).type =
              "ssl_certificate" ∧
            sc.status = "success" ∧ sc.days_until_expiry = some d)) :=
  (c2_alert_invariant Fixtures.cfgPlain [Fixtures.rBoth]).1
    (by intro r hr; rcases List.mem_singleton.mp hr with rfl
        exact ⟨fun _ => rfl, fun _ => rfl⟩)
    _ (by decide)

/-- Counterexample to C3 as stated.  The domain `a.com` has a matching
`DomainConfig` whose `alert_threshold_days` is present and non-null
(`some 0`), and its registration check reports 10 days to expiry under
global threshold 30.  Under the claimed resolution the effective threshold
would be 0 and no alert could be emitted (10 > 0), and any emitted alert
would carry threshold 0.  The code instead treats the override through
Python truthiness (`if domain_config and domain_config.alert_threshold_days`),
so the zero override is discarded: one alert is emitted and it carries the
global threshold 30. -/
theorem c3_counterexample :
    Fixtures.cfgZero.domains =
      [{ name := "a.com", description := "", alert_threshold_days := some 0 }] ∧
    Fixtures.cfgZero.monitoring.alert_threshold_days = 30 ∧
    (get_alerts Fixtures.cfgZero [Fixtures.rZero]).map AlertRecord.threshold =
      [30] := by
  decide

/-- C3 as amended.  The effective threshold used by the alert evaluator is
the matching `DomainConfig.alert_threshold_days` whenever it is present,
non-null and nonzero (Python truthiness), and the global threshold
otherwise (a present override of 0 is treated as unset); in particular a
domain with per-domain threshold 60 and `days_until_expiry = 45` under
global threshold 30 yields exactly one alert whose threshold field is 60. -/
theorem c3_threshold_resolution (cfg : MonitorConfig) (name : String)
    (dc sc : CheckResult) (cfgD : DomainConfig) (t : Int) :
    (cfg.domains.find? (fun d => d.name == name) = some cfgD →
      cfgD.alert_threshold_days = some t → t ≠ 0 →
      ∀ a ∈ get_alerts cfg [.checked name dc sc], a.threshold = t) ∧
    (cfg.domains.find? (fun d => d.name == name) = some cfgD →
      (cfgD.alert_threshold_days = none ∨ cfgD.alert_threshold_days = some 0) →
      ∀ a ∈ get_alerts cfg [.checked name dc sc],
        a.threshold = cfg.monitoring.alert_threshold_days) ∧
    (get_alerts Fixtures.cfg60 [Fixtures.r45] =
      [{ domain := "b.com", type := "domain_registration",
         days_until_expiry := some 45, expiration_date := some (45 * 86400),
         registrar := some "R", threshold := 60 }]) := by
  refine ⟨fun hf ht h0 a ha => ?_, fun hf hcase a ha => ?_, by decide⟩
  · have hth := alertsFor_threshold cfg name dc sc a
      (by simpa [get_alerts] using ha)
    rw [hth, effectiveThreshold, hf]
    simp [ht, h0]
  · have hth := alertsFor_threshold cfg name dc sc a
      (by simpa [get_alerts] using ha)
    rcases hcase with hc | hc <;>
      rw [hth, effectiveThreshold, hf] <;> simp [hc]

/-- Witness for C3's amended theorem: the alert emitted for the 60/45/30
configuration carries threshold 60. -/
theorem c3_threshold_resolution_witness :
    ({ domain := "b.com", type := "domain_registration",
       days_until_expiry := some 45, expiration_date := some (45 * 86400),
       registrar := some "R", threshold := 60 } : AlertRecord).threshold = 60 :=
  (c3_threshold_resolution Fixtures.cfg60 "b.com"
    { domain := "b.com", status := "success", days_until_expiry := some 45,
      expiration_date := some (45 * 86400), registrar := some "R" }
    { domain := "b.com", status := "error",
      message := some "Connection timeout" }
    { name := "b.com", description := "", alert_threshold_days := some 60 }
    60).1 (by decide) rfl (by decide)
    { domain := "b.com", type := "domain_registration",
      days_until_expiry := some 45, expiration_date := some (45 * 86400),
      registrar := some "R", threshold := 60 } (by decide)

/-- C7.  The evaluator distributes over appending of result lists — emitted
alerts follow the input result order with no further sorting — and a single
result contributes at most two alerts, the domain-registration alert (when
emitted) strictly preceding the ssl-certificate alert (when emitted). -/
theorem c7_alert_order (cfg : MonitorConfig) (l1 l2 : List MonitorResult)
    (r : MonitorResult) :
    get_alerts cfg (l1 ++ l2) = get_alerts cfg l1 ++ get_alerts cfg l2 ∧
    (get_alerts cfg [r] = [] ∨ (∃ a, get_alerts cfg [r] = [a]) ∨
      (∃ a b, get_alerts cfg [r] = [a, b] ∧ a.type = "domain_registration" ∧
        b.type = "ssl_certificate")) := by
  refine ⟨get_alerts_append cfg l1 l2, ?_⟩
  cases r with
  | failed d e => exact Or.inl rfl
  | checked name dc sc =>
    simp only [get_alerts, alertsFor, List.append_nil]
    split
    · split
      · exact Or.inr (Or.inr ⟨_, _, rfl, rfl, rfl⟩)
      · exact Or.inr (Or.inl ⟨_, rfl⟩)
    · split
      · exact Or.inr (Or.inl ⟨_, rfl⟩)
      · exact Or.inl rfl

/-- The batch loop returns one entry per input domain. -/
theorem check_all_domains_length (oracle : CheckOracle) (ds : List String) :
    (check_all_domains oracle ds).length = ds.length := by
  induction ds with
  | nil => rfl
  | cons d ds ih => simp [check_all_domains, ih]

/-- The `i`-th entry of the batch is determined by the `i`-th domain alone. -/
theorem check_all_domains_get (oracle : CheckOracle) (ds : List String)
    (i : Nat) (h : i < ds.length)
    (h2 : i < (check_all_domains oracle ds).length) :
    (check_all_domains oracle ds).get ⟨i, h2⟩ =
      match oracle (ds.get ⟨i, h⟩) with
      | .ok (dc, sc) => .checked (ds.get ⟨i, h⟩) dc sc
      | .error e => .failed (ds.get ⟨i, h⟩) e := by
  induction ds generalizing i with
  | nil => exact absurd h (Nat.not_lt_zero i)
  | cons d ds ih =>
    cases i with
    | zero => rfl
    | succ n =>
      have h3 : n < ds.length := Nat.lt_of_succ_lt_succ h
      have h4 : n < (check_all_domains oracle ds).length := by
        rw [check_all_domains_length]; exact h3
      exact ih n h3 h4

/-- C8.  `check_all_domains` over the configured domain list returns exactly
one entry per configured domain, in configuration order; an entry records
its own domain's outcome — an error entry when that domain's check raised,
the fully populated entry otherwise — independently of every other domain
(partial-failure isolation, no abort). -/
theorem c8_batch_isolation (oracle : CheckOracle) (cfg : MonitorConfig) :
    (check_all_domains oracle (configuredDomains cfg)).length =
      (configuredDomains cfg).length ∧
    ∀ i (h : i < (configuredDomains cfg).length),
      ∃ h2 : i < (check_all_domains oracle (configuredDomains cfg)).length,
        ((check_all_domains oracle (configuredDomains cfg)).get ⟨i, h2⟩).resDomain
            = (configuredDomains cfg).get ⟨i, h⟩ ∧
        (∀ e, oracle ((configuredDomains cfg).get ⟨i, h⟩) = .error e →
          (check_all_domains oracle (configuredDomains cfg)).get ⟨i, h2⟩ =
            .failed ((configuredDomains cfg).get ⟨i, h⟩) e) ∧
        (∀ dc sc, oracle ((configuredDomains cfg).get ⟨i, h⟩) = .ok (dc, sc) →
          (check_all_domains oracle (configuredDomains cfg)).get ⟨i, h2⟩ =
            .checked ((configuredDomains cfg).get ⟨i, h⟩) dc sc) := by
  refine ⟨check_all_domains_length _ _, fun i h => ?_⟩
  have h2 : i < (check_all_domains oracle (configuredDomains cfg)).length := by
    rw [check_all_domains_length]; exact h
  refine ⟨h2, ?_, fun e he => ?_, fun dc sc hok => ?_⟩
  · rw [check_all_domains_get oracle _ i h h2]
    rcases ho : oracle ((configuredDomains cfg).get ⟨i, h⟩) with e | ⟨dc, sc⟩ <;>
      simp [ho, MonitorResult.resDomain]
  · rw [check_all_domains_get oracle _ i h h2, he]
  · rw [check_all_domains_get oracle _ i h h2, hok]

/-- Witness for C8: a two-domain batch whose first check raises and whose
second succeeds — the result has length 2, an error-tagged first entry and a
fully populated second entry. -/
theorem c8_batch_isolation_witness :
    (check_all_domains Fixtures.oracleMixed
        (configuredDomains Fixtures.cfgPlain)).length = 2 ∧
    (check_all_domains Fixtures.oracleMixed
        (configuredDomains Fixtures.cfgPlain))[0]? =
      some (.failed "c.com" "network down") ∧
    (check_all_domains Fixtures.oracleMixed
        (configuredDomains Fixtures.cfgPlain))[1]? =
      some (.checked "d.com"
        { domain := "d.com", status := "success", days_until_expiry := some 50,
          expiration_date := some (50 * 86400), registrar := some "R" }
        { domain := "d.com", status := "success", days_until_expiry := some 40,
          expiration_date := some (40 * 86400) }) := by
  refine ⟨?_, ?_, ?_⟩
  · exact ((c8_batch_isolation Fixtures.oracleMixed Fixtures.cfgPlain).1).trans
      (by decide)
  · rcases (c8_batch_isolation Fixtures.oracleMixed Fixtures.cfgPlain).2 0
      (by decide) with ⟨h2, _, hfail, _⟩
    rw [List.getElem?_eq_getElem h2]
    exact congrArg some (hfail "network down" rfl)
  · rcases (c8_batch_isolation Fixtures.oracleMixed Fixtures.cfgPlain).2 1
      (by decide) with ⟨h2, _, _, hok⟩
    rw [List.getElem?_eq_getElem h2]
    exact congrArg some (hok _ _ rfl)

end DomainMonitor

namespace DomainToolkit

/-- `List.isPrefixOf` agrees with the prefix relation. -/
theorem isPrefixOf_eq_true_iff (l1 l2 : List Char) :
    l1.isPrefixOf l2 = true ↔ l1 <+: l2 := List.isPrefixOf_iff_prefix

/-- The fuel argument of `removeAllFuel` is irrelevant once it bounds the
length of the input. -/
theorem removeAllFuel_congr (pat : List Char) (f1 : Nat) :
    ∀ (s : List Char) (f2 : Nat), s.length ≤ f1 → s.length ≤ f2 →
      removeAllFuel pat f1 s = removeAllFuel pat f2 s := by
  induction f1 with
  | zero =>
    intro s f2 h1 _
    have hs : s = [] := List.eq_nil_of_length_eq_zero (Nat.le_zero.mp h1)
    subst hs
    cases f2 <;> rfl
  | succ f ih =>
    intro s f2 h1 h2
    cases s with
    | nil => cases f2 <;> rfl
    | cons c cs =>
      cases f2 with
      | zero => simp at h2
      | succ g =>
        have hcs1 : cs.length ≤ f := by simp at h1; omega
        have hcs2 : cs.length ≤ g := by simp at h2; omega
        simp only [removeAllFuel]
        split
        · apply ih
          · simp only [List.length_drop]; omega
          · simp only [List.length_drop]; omega
        · rw [ih cs g hcs1 hcs2]

/-- Any sufficient fuel computes `removeAll`. -/
theorem removeAllFuel_eq (pat s : List Char) (fuel : Nat)
    (h : s.length ≤ fuel) : removeAllFuel pat fuel s = removeAll pat s :=
  removeAllFuel_congr pat fuel s s.length h (le_refl _)

/-- A leading occurrence of the pattern is removed and scanning resumes
after it. -/
theorem removeAll_append_self (pat s : List Char) (hpat : pat ≠ []) :
    removeAll pat (pat ++ s) = removeAll pat s := by
  rcases pat with _ | ⟨q, qs⟩
  · exact absurd rfl hpat
  · show removeAllFuel (q :: qs) ((q :: qs) ++ s).length ((q :: qs) ++ s) = _
    simp only [List.cons_append, List.length_cons, removeAllFuel]
    rw [if_pos]
    · show removeAllFuel (q :: qs) (qs ++ s).length
        (List.drop (qs.length + 1 - 1) (qs ++ s)) = removeAll (q :: qs) s
      have hdrop : List.drop (qs.length + 1 - 1) (qs ++ s) = s := by
        simp only [Nat.add_sub_cancel]
        exact List.drop_left qs s
      rw [hdrop]
      exact removeAllFuel_eq _ _ _ (by simp)
    · refine ⟨(isPrefixOf_eq_true_iff _ _).mpr ⟨s, by simp⟩, by simp⟩

/-- When no occurrence of the pattern starts inside `a`, scanning passes
over `a` untouched. -/
theorem removeAll_append_of_no_occ (pat b : List Char) :
    ∀ a : List Char,
      (∀ i, i < a.length → ¬ (pat.isPrefixOf (List.drop i (a ++ b)) = true)) →
      removeAll pat (a ++ b) = a ++ removeAll pat b := by
  intro a
  induction a with
  | nil => intro _; simp
  | cons c a2 ih =>
    intro hno
    have hhead := hno 0 (by simp)
    simp only [List.drop_zero, List.cons_append] at hhead
    show removeAllFuel pat ((c :: a2) ++ b).length ((c :: a2) ++ b) = _
    simp only [List.cons_append, List.length_cons, removeAllFuel]
    rw [if_neg]
    · show c :: removeAllFuel pat (a2 ++ b).length (a2 ++ b) =
        c :: (a2 ++ removeAll pat b)
      rw [removeAllFuel_eq pat (a2 ++ b) _ (le_refl _)]
      have ih2 := ih (fun i hi => by
        have hx := hno (i + 1) (by simp; omega)
        simpa only [List.cons_append, List.drop_succ_cons] using hx)
      rw [ih2]
    · intro hcond
      exact hhead hcond.1

/-- A character that cannot start the pattern is kept and scanning
continues. -/
theorem removeAll_cons_of_head_ne (pat : List Char) (c : Char) (s : List Char)
    (h : pat.head? ≠ some c) :
    removeAll pat (c :: s) = c :: removeAll pat s := by
  show removeAllFuel pat (c :: s).length (c :: s) = _
  simp only [List.length_cons, removeAllFuel]
  rw [if_neg]
  · rw [removeAllFuel_eq pat s s.length (le_refl _)]
  · rintro ⟨h1, h2⟩
    rcases pat with _ | ⟨q, qs⟩
    · simp at h2
    · rcases (isPrefixOf_eq_true_iff _ _).mp h1 with ⟨t, ht⟩
      simp only [List.cons_append, List.cons.injEq] at ht
      exact h (by simp [ht.1])

/-- A match of the pattern at offset `i` pins down the characters of the
scanned list at offsets `i + j` for `j` below the pattern length. -/
theorem occ_getElem (pat s : List Char) (i j : Nat) (hj : j < pat.length)
    (h : pat.isPrefixOf (List.drop i s) = true) :
    s[i + j]? = pat[j]? := by
  rcases (isPrefixOf_eq_true_iff _ _).mp h with ⟨t, ht⟩
  calc s[i + j]? = (List.drop i s)[j]? := (List.getElem?_drop s i j).symm
    _ = pat[j]? := by rw [← ht]; exact List.getElem?_append_left hj

end DomainToolkit

namespace DomainToolkit

/-- No occurrence of `"http://"` can start inside a colon-free block `a`
when `a` is followed by nothing or by a slash: the pattern's colon (index 4)
would have to land inside `a` or on the boundary character. -/
theorem no_http_occ (a b : List Char) (hcolon : ':' ∉ a)
    (hb : b = [] ∨ b.head? = some '/') :
    ∀ i, i < a.length →
      ¬ ("http://".toList.isPrefixOf (List.drop i (a ++ b)) = true) := by
  intro i hi h
  by_cases hfit : i + 4 < a.length
  · have h4 := occ_getElem _ (a ++ b) i 4 (by decide) h
    rw [List.getElem?_append_left hfit] at h4
    have hmem : a[i + 4]? = some ':' := by rw [h4]; decide
    exact hcolon (List.getElem?_mem hmem)
  · have hm1 : 1 ≤ a.length - i := by omega
    have hm4 : a.length - i ≤ 4 := by omega
    have hoc := occ_getElem _ (a ++ b) i (a.length - i)
      (by rw [show "http://".toList.length = 7 from rfl]; omega) h
    have him : i + (a.length - i) = a.length := by omega
    rw [him, List.getElem?_append_right (le_refl a.length), Nat.sub_self] at hoc
    rcases hb with rfl | hhd
    · set m := a.length - i with hmdef
      interval_cases m <;> exact absurd hoc (by decide)
    · rw [← List.head?_eq_getElem?, hhd] at hoc
      set m := a.length - i with hmdef
      interval_cases m <;> exact absurd hoc (by decide)

/-- Same exclusion for `"https://"` (colon at index 5). -/
theorem no_https_occ (a b : List Char) (hcolon : ':' ∉ a)
    (hb : b = [] ∨ b.head? = some '/') :
    ∀ i, i < a.length →
      ¬ ("https://".toList.isPrefixOf (List.drop i (a ++ b)) = true) := by
  intro i hi h
  by_cases hfit : i + 5 < a.length
  · have h5 := occ_getElem _ (a ++ b) i 5 (by decide) h
    rw [List.getElem?_append_left hfit] at h5
    have hmem : a[i + 5]? = some ':' := by rw [h5]; decide
    exact hcolon (List.getElem?_mem hmem)
  · have hm1 : 1 ≤ a.length - i := by omega
    have hm5 : a.length - i ≤ 5 := by omega
    have hoc := occ_getElem _ (a ++ b) i (a.length - i)
      (by rw [show "https://".toList.length = 8 from rfl]; omega) h
    have him : i + (a.length - i) = a.length := by omega
    rw [him, List.getElem?_append_right (le_refl a.length), Nat.sub_self] at hoc
    rcases hb with rfl | hhd
    · set m := a.length - i with hmdef
      interval_cases m <;> exact absurd hoc (by decide)
    · rw [← List.head?_eq_getElem?, hhd] at hoc
      set m := a.length - i with hmdef
      interval_cases m <;> exact absurd hoc (by decide)

/-- No occurrence of `"www."` can start inside a block `a` that itself
contains no occurrence, when `a` is followed by nothing or by a slash. -/
theorem no_www_occ (a b : List Char)
    (hwww : ∀ i, i < a.length →
      ¬ ("www.".toList.isPrefixOf (List.drop i a) = true))
    (hb : b = [] ∨ b.head? = some '/') :
    ∀ i, i < a.length →
      ¬ ("www.".toList.isPrefixOf (List.drop i (a ++ b)) = true) := by
  intro i hi h
  by_cases hfit : i + 4 ≤ a.length
  · have hpre : "www.".toList <+: List.drop i (a ++ b) :=
      (isPrefixOf_eq_true_iff _ _).mp h
    have hsub : List.drop i a <+: List.drop i (a ++ b) := by
      rw [List.drop_append_of_le_length (le_of_lt hi)]
      exact ⟨b, rfl⟩
    have hlen : "www.".toList.length ≤ (List.drop i a).length := by
      simp only [List.length_drop]
      rw [show "www.".toList.length = 4 from rfl]
      omega
    exact hwww i hi ((isPrefixOf_eq_true_iff _ _).mpr
      (List.prefix_of_prefix_length_le hpre hsub hlen))
  · have hm1 : 1 ≤ a.length - i := by omega
    have hm3 : a.length - i ≤ 3 := by omega
    have hoc := occ_getElem _ (a ++ b) i (a.length - i)
      (by rw [show "www.".toList.length = 4 from rfl]; omega) h
    have him : i + (a.length - i) = a.length := by omega
    rw [him, List.getElem?_append_right (le_refl a.length), Nat.sub_self] at hoc
    rcases hb with rfl | hhd
    · set m := a.length - i with hmdef
      interval_cases m <;> exact absurd hoc (by decide)
    · rw [← List.head?_eq_getElem?, hhd] at hoc
      set m := a.length - i with hmdef
      interval_cases m <;> exact absurd hoc (by decide)

end DomainToolkit

namespace DomainToolkit

/-- No occurrence of `"http://"` starts inside the first eight characters of
`"https://" ++ b`, for any `b`: index 0 fails at the colon position (`'s'`),
and later indices fail at the leading `'h'`. -/
theorem no_http_in_https (b : List Char) :
    ∀ i, i < "https://".toList.length →
      ¬ ("http://".toList.isPrefixOf
          (List.drop i ("https://".toList ++ b)) = true) := by
  intro i hi h
  have h0 := occ_getElem _ ("https://".toList ++ b) i 0 (by decide) h
  have hi8 : i < 8 := hi
  interval_cases i
  · have h4 := occ_getElem _ ("https://".toList ++ b) 0 4 (by decide) h
    rw [List.getElem?_append_left (by decide : 0 + 4 < "https://".toList.length)] at h4
    exact absurd h4 (by decide)
  all_goals
    rw [List.getElem?_append_left (by decide)] at h0
  all_goals exact absurd h0 (by decide)

/-- Splitting at the first slash ignores everything from the slash on. -/
theorem takeWhile_append_slash (h t : List Char) (hs : '/' ∉ h) :
    (h ++ '/' :: t).takeWhile (fun c => c ≠ '/') = h := by
  induction h with
  | nil => simp [List.takeWhile_cons]
  | cons c h2 ih =>
    have hc : c ≠ '/' := fun hc => hs (hc ▸ List.mem_cons_self c h2)
    have hs2 : '/' ∉ h2 := fun hm => hs (List.mem_cons_of_mem _ hm)
    have hcb : (fun x => decide (x ≠ '/')) c = true := by simp [hc]
    rw [List.cons_append, List.takeWhile_cons, if_pos hcb, ih hs2]

/-- A slash-free list survives the split unchanged. -/
theorem takeWhile_no_slash (h : List Char) (hs : '/' ∉ h) :
    h.takeWhile (fun c => c ≠ '/') = h := by
  induction h with
  | nil => rfl
  | cons c h2 ih =>
    have hc : c ≠ '/' := fun hc => hs (hc ▸ List.mem_cons_self c h2)
    have hs2 : '/' ∉ h2 := fun hm => hs (List.mem_cons_of_mem _ hm)
    have hcb : (fun x => decide (x ≠ '/')) c = true := by simp [hc]
    rw [List.takeWhile_cons, if_pos hcb, ih hs2]

/-- Splitting a slash-free block followed by an empty or slash-headed tail
recovers the block. -/
theorem takeWhile_good (h t : List Char) (hs : '/' ∉ h)
    (ht : t = [] ∨ t.head? = some '/') :
    (h ++ t).takeWhile (fun c => c ≠ '/') = h := by
  rcases ht with rfl | hh
  · rw [List.append_nil]; exact takeWhile_no_slash h hs
  · rcases t with _ | ⟨c, t2⟩
    · rw [List.append_nil]; exact takeWhile_no_slash h hs
    · have hc : c = '/' := by simpa using hh
      subst hc
      exact takeWhile_append_slash h t2 hs

/-- Removing a pattern that cannot begin with a slash preserves "empty or
slash-headed". -/
theorem removeAll_tail_good (pat : List Char) (hp : pat.head? ≠ some '/') :
    ∀ t, (t = [] ∨ t.head? = some '/') →
      (removeAll pat t = [] ∨ (removeAll pat t).head? = some '/') := by
  intro t ht
  rcases ht with rfl | hh
  · exact Or.inl rfl
  · rcases t with _ | ⟨c, t2⟩
    · exact Or.inl rfl
    · have hc : c = '/' := by simpa using hh
      subst hc
      rw [removeAll_cons_of_head_ne pat '/' t2 hp]
      exact Or.inr rfl

/-- Pass `"http://"`-removal over a colon-free block. -/
theorem reduce_http (a tail : List Char) (hcolon : ':' ∉ a)
    (ht : tail = [] ∨ tail.head? = some '/') :
    removeAll "http://".toList (a ++ tail) =
      a ++ removeAll "http://".toList tail :=
  removeAll_append_of_no_occ _ tail a (no_http_occ a tail hcolon ht)

/-- Pass `"https://"`-removal over a colon-free block. -/
theorem reduce_https (a tail : List Char) (hcolon : ':' ∉ a)
    (ht : tail = [] ∨ tail.head? = some '/') :
    removeAll "https://".toList (a ++ tail) =
      a ++ removeAll "https://".toList tail :=
  removeAll_append_of_no_occ _ tail a (no_https_occ a tail hcolon ht)

/-- Pass `"www."`-removal over a block with no internal occurrence. -/
theorem reduce_www (a tail : List Char)
    (hwww : ∀ i, i < a.length →
      ¬ ("www.".toList.isPrefixOf (List.drop i a) = true))
    (ht : tail = [] ∨ tail.head? = some '/') :
    removeAll "www.".toList (a ++ tail) =
      a ++ removeAll "www.".toList tail :=
  removeAll_append_of_no_occ _ tail a (no_www_occ a tail hwww ht)

/-- A colon stays absent when a `"www."` block is prepended. -/
theorem colon_notmem_pre (w h : List Char)
    (hw : w = [] ∨ w = "www.".toList) (hcolon : ':' ∉ h) : ':' ∉ w ++ h := by
  intro hmem
  rcases hw with rfl | rfl
  · exact hcolon (by simpa using hmem)
  · rcases List.mem_append.mp hmem with hx | hx
    · exact absurd hx (by decide)
    · exact hcolon hx

end DomainToolkit

namespace DomainToolkit

/-- Normalization of one scheme/`www.`/path variation over a clean host
block `h` (no slash, no colon, no `"www."` occurrence): the scheme prefix
and `"www."` block are removed and the tail (empty, or slash plus path) is
cut at the split, leaving exactly `h`. -/
theorem cleanList_variation (h : List Char) (hslash : '/' ∉ h)
    (hcolon : ':' ∉ h)
    (hwww : ∀ i, i < h.length →
      ¬ ("www.".toList.isPrefixOf (List.drop i h) = true)) :
    ∀ tail, (tail = [] ∨ tail.head? = some '/') →
    ∀ scheme, (scheme = [] ∨ scheme = "http://".toList ∨
      scheme = "https://".toList) →
    ∀ w, (w = [] ∨ w = "www.".toList) →
      cleanList (scheme ++ (w ++ (h ++ tail))) = h := by
  intro tail htail scheme hscheme w hw
  have hcolonA : ':' ∉ w ++ h := colon_notmem_pre w h hw hcolon
  have t1g := removeAll_tail_good "http://".toList (by decide) tail htail
  have t2g := removeAll_tail_good "https://".toList (by decide) _ t1g
  have final : ∀ t2, (t2 = [] ∨ t2.head? = some '/') →
      (removeAll "www.".toList ((w ++ h) ++ t2)).takeWhile
        (fun c => c ≠ '/') = h := by
    intro t2 ht2
    rcases hw with rfl | rfl
    · rw [List.nil_append, reduce_www h t2 hwww ht2]
      exact takeWhile_good h _ hslash
        (removeAll_tail_good _ (by decide) t2 ht2)
    · rw [List.append_assoc, removeAll_append_self _ _ (by decide),
        reduce_www h t2 hwww ht2]
      exact takeWhile_good h _ hslash
        (removeAll_tail_good _ (by decide) t2 ht2)
  have hassoc : w ++ (h ++ tail) = (w ++ h) ++ tail :=
    (List.append_assoc w h tail).symm
  rcases hscheme with rfl | rfl | rfl
  · unfold cleanList
    rw [List.nil_append, hassoc, reduce_http _ _ hcolonA htail,
      reduce_https _ _ hcolonA t1g]
    exact final _ t2g
  · unfold cleanList
    rw [removeAll_append_self "http://".toList _ (by decide), hassoc,
      reduce_http _ _ hcolonA htail, reduce_https _ _ hcolonA t1g]
    exact final _ t2g
  · unfold cleanList
    rw [removeAll_append_of_no_occ "http://".toList (w ++ (h ++ tail))
        "https://".toList (no_http_in_https _), hassoc,
      reduce_http _ _ hcolonA htail,
      removeAll_append_self "https://".toList _ (by decide),
      reduce_https _ _ hcolonA t1g]
    exact final _ t2g

/-- C6.  For every clean host block `h` (slash-free, colon-free, containing
no occurrence of `"www."`) and every path `p`, all scheme/`www.`/path
variations of `h` normalize to the identical canonical host `h` itself:
prefixing nothing, `"http://"` or `"https://"`, optionally `"www."`, and
appending nothing or `"/" ++ p`, always yields `h` — e.g.
`"https://www.example.com/x"` normalizes to `"example.com"`.  (Removal uses
Python `str.replace`'s replace-everywhere semantics, the source's
behaviour.) -/
theorem c6_normalizer (h p : List Char) (hslash : '/' ∉ h) (hcolon : ':' ∉ h)
    (hwww : ∀ i, i < h.length →
      ¬ ("www.".toList.isPrefixOf (List.drop i h) = true)) :
    ∀ scheme, (scheme = [] ∨ scheme = "http://".toList ∨
      scheme = "https://".toList) →
    ∀ w, (w = [] ∨ w = "www.".toList) →
      cleanDomain (String.mk (scheme ++ w ++ h)) = String.mk h ∧
      cleanDomain (String.mk (scheme ++ w ++ h ++ '/' :: p)) = String.mk h := by
  intro scheme hscheme w hw
  constructor
  · show String.mk (cleanList (scheme ++ w ++ h)) = String.mk h
    congr 1
    have := cleanList_variation h hslash hcolon hwww [] (Or.inl rfl)
      scheme hscheme w hw
    simpa [List.append_assoc] using this
  · show String.mk (cleanList (scheme ++ w ++ h ++ '/' :: p)) = String.mk h
    congr 1
    have := cleanList_variation h hslash hcolon hwww ('/' :: p) (Or.inr rfl)
      scheme hscheme w hw
    simpa [List.append_assoc] using this

/-- Witness for C6: `"https://www.example.com"` and
`"https://www.example.com/x"` both normalize to `"example.com"`. -/
theorem c6_normalizer_witness :
    cleanDomain (String.mk ("https://".toList ++ "www.".toList ++
        "example.com".toList)) = String.mk "example.com".toList ∧
    cleanDomain (String.mk ("https://".toList ++ "www.".toList ++
        "example.com".toList ++ '/' :: "x".toList)) =
      String.mk "example.com".toList :=
  c6_normalizer "example.com".toList "x".toList (by decide) (by decide)
    (by decide) "https://".toList (Or.inr (Or.inr rfl)) "www.".toList
    (Or.inr rfl)

end DomainToolkit
